import Mathlib

/-!
Shallow embedding of `sensu-prometheus-metrics-checks` (src/main.go).

The repository holds two variants of the same program.  They differ only in
the sentinel that marks a float64 option as "not set on the command line":
variant A leaves the Go zero value `0`, variant B gives `--min`, `--max` and
`--value` the default `math.Pi`.  Everything else (`checkArgs` modulo the
sentinel, `QueryExporter`, `executeCheck`) is textually identical, so the
evaluator is embedded once, parametrised by the sentinel, and instantiated
at `0` and at the exact rational value of the float64 constant `math.Pi`.

Float64 values appear in the program only in comparisons (`==`, `!=`, `<`,
`>`); no arithmetic is performed on them.  Every finite float64 is a
rational number and float64 comparison of finite values agrees with the
rational comparison of their exact values, so sample values and the three
threshold options are embedded as `ℚ` (NaN never arises: the parsed values
the claims quantify over are finite).

Effectful boundaries (the HTTP round trip, the text-format parser of the
`prometheus/common` library) are represented by their observable outcome:
`FetchOutcome` is either a transport error or a response carrying a status
code, a status line, and the parse result of the body, a list of metric
families each already reduced to the samples `expfmt.ExtractSamples`
yields for it (extraction errors are discarded by the source:
`familySamples, _ := expfmt.ExtractSamples(...)`).
-/

namespace SensuCheck

/-- One label of a sample: `model.LabelName` / `model.LabelValue` pair. -/
structure LabelPair where
  name : String
  value : String
deriving DecidableEq

/-- One parsed sample (`model.Sample`): its label set (including the
reserved `__name__` entry) and its float64 value, embedded as `ℚ`.
The timestamp is never read by the program and is omitted. -/
structure Sample where
  labels : List LabelPair
  value : ℚ
deriving DecidableEq

/-- `model.MetricNameLabel`. -/
def metricNameLabel : String := "__name__"

/-- The `__name__` label of a sample, when present. -/
def nameLabel (s : Sample) : Option String :=
  (s.labels.find? fun p => p.name == metricNameLabel).map fun p => p.value

/-- Escaping of one character under Go `%q` (strconv.Quote) for the
printable ASCII characters label values are drawn from: backslash and
double quote are escaped, everything else passes through. -/
def escapeChar (c : Char) : String :=
  if c = '\\' then "\\\\"
  else if c = '"' then "\\\""
  else String.singleton c

/-- Go `fmt.Sprintf("%q", v)`: the value wrapped in double quotes with
escaping. -/
def goQuote (v : String) : String :=
  "\"" ++ String.join (v.toList.map escapeChar) ++ "\""

/-- Byte-lexicographic order on character lists, as Go `sort.Strings`
compares strings (agrees with it on ASCII). -/
def lexLe : List Char → List Char → Bool
  | [], _ => true
  | _ :: _, [] => false
  | a :: as, b :: bs =>
    if a.val < b.val then true
    else if a.val = b.val then lexLe as bs
    else false

/-- Go string order `a <= b`. -/
def strLe (a b : String) : Bool := lexLe a.toList b.toList

/-- Insertion step of the sort below. -/
def insertStr (x : String) : List String → List String
  | [] => [x]
  | y :: ys => if strLe x y then x :: y :: ys else y :: insertStr x ys

/-- `sort.Strings`: sort a list of strings into Go string order. -/
def sortStrings : List String → List String
  | [] => []
  | x :: xs => insertStr x (sortStrings xs)

/-- `model.Metric.String()`: the rendering the program compares against the
configured `--metric` string.  The `__name__` entry supplies the base name;
every other label is rendered `name="value"`, the renderings are sorted,
and when any exist they are joined with `", "` and wrapped in braces after
the base name.  With no other labels the bare base name is returned
(`"\x7b\x7d"` when `__name__` is absent too). -/
def metricString (labels : List LabelPair) : String :=
  let nameEntry := labels.find? fun p => p.name == metricNameLabel
  let others := labels.filter fun p => p.name != metricNameLabel
  let labelStrings := others.map fun p => p.name ++ "=" ++ goQuote p.value
  match labelStrings with
  | [] =>
    match nameEntry with
    | some n => n.value
    | none => "\x7b\x7d"
  | _ :: _ =>
    (match nameEntry with | some n => n.value | none => "")
      ++ "\x7b" ++ String.intercalate ", " (sortStrings labelStrings) ++ "\x7d"

/-- The plugin configuration (struct `Config` of src/main.go): the resolved
option values the check runs with.  `min`, `max`, `value` are the three
float64 threshold options, embedded as `ℚ`. -/
structure Config where
  url : String
  metric : String
  min : ℚ
  max : ℚ
  value : ℚ
deriving DecidableEq

/-- `sensu.CheckStateOK`. -/
def checkStateOK : Nat := 0

/-- `sensu.CheckStateCritical`. -/
def checkStateCritical : Nat := 2

/-- `sensu.CheckStateUnknown`. -/
def checkStateUnknown : Nat := 3

/-- The exact rational value of the float64 constant `math.Pi`
(IEEE-754 bit pattern 0x400921FB54442D18): 7074237752028440 / 2^51, in
lowest terms 884279719003555 / 2^48 (the numerator is odd).  Written as an
explicit `Rat` structure literal so that it evaluates by kernel reduction.
Variant B uses it as the "option not set" sentinel. -/
def piF64 : ℚ := ⟨884279719003555, 281474976710656, by norm_num, by norm_num⟩

/-- `checkArgs` of variant A (zero sentinel): UNKNOWN when `--metric` is
empty, UNKNOWN ("don't do that") when `Value`, `Max` and `Min` are all
nonzero, OK otherwise.  The Go `(int, error)` return is `Nat × Option
String`. -/
def checkArgsA (cfg : Config) : Nat × Option String :=
  if cfg.metric = "" then (checkStateUnknown, some "--metric is required")
  else if cfg.value ≠ 0 ∧ cfg.max ≠ 0 ∧ cfg.min ≠ 0 then
    (checkStateUnknown, some "don\x27t do that")
  else (checkStateOK, none)

/-- `checkArgs` of variant B (π sentinel): UNKNOWN when `--metric` is
empty, UNKNOWN ("don't do that") when `Value`, `Max` and `Min` all still
hold the default `math.Pi`, OK otherwise. -/
def checkArgsB (cfg : Config) : Nat × Option String :=
  if cfg.metric = "" then (checkStateUnknown, some "--metric is required")
  else if cfg.value = piF64 ∧ cfg.max = piF64 ∧ cfg.min = piF64 then
    (checkStateUnknown, some "don\x27t do that")
  else (checkStateOK, none)

/-- One line the program prints, kept structured: the `Failed: %s` line of
a fetch error, the three `Check require ...` failure lines (metric name,
observed value, required bound), and the `Metric %s is at %f.` line of a
sample that passed every set condition. -/
inductive Diag where
  | failedFetch (msg : String)
  | requireValue (metric : String) (observed required : ℚ)
  | requireMin (metric : String) (observed required : ℚ)
  | requireMax (metric : String) (observed required : ℚ)
  | atValue (metric : String) (observed : ℚ)
deriving DecidableEq

/-- Whether a printed line is one of the three threshold-failure lines. -/
def Diag.isFailure : Diag → Bool
  | .requireValue _ _ _ => true
  | .requireMin _ _ _ => true
  | .requireMax _ _ _ => true
  | _ => false

/-- The sample loop of `executeCheck` (the `for _, value := range samples`
body): for a sample whose `value.Metric.String()` equals `plugin.Metric`,
a set-and-violated exact-value condition, else a set-and-violated minimum,
else a set-and-violated maximum prints its failure line and returns
CRITICAL at once; otherwise the sample's OK line is printed and the loop
continues; after the loop OK is returned.  `sentinel` is the "not set"
default of the float64 options (0 in variant A, `piF64` in variant B). -/
def evalLoop (sentinel : ℚ) (cfg : Config) : List Sample → Nat × List Diag
  | [] => (checkStateOK, [])
  | s :: rest =>
    if metricString s.labels = cfg.metric then
      if cfg.value ≠ sentinel ∧ s.value ≠ cfg.value then
        (checkStateCritical, [Diag.requireValue cfg.metric s.value cfg.value])
      else if cfg.min ≠ sentinel ∧ s.value < cfg.min then
        (checkStateCritical, [Diag.requireMin cfg.metric s.value cfg.min])
      else if cfg.max ≠ sentinel ∧ s.value > cfg.max then
        (checkStateCritical, [Diag.requireMax cfg.metric s.value cfg.max])
      else
        let r := evalLoop sentinel cfg rest
        (r.1, Diag.atValue cfg.metric s.value :: r.2)
    else
      evalLoop sentinel cfg rest

/-- One metric family of the parsed body, reduced to the samples
`expfmt.ExtractSamples` yields for it (its extraction error is discarded
by the source). -/
structure Family where
  extracted : List Sample
deriving DecidableEq

/-- The observable outcome of the HTTP GET of `QueryExporter`: a
transport-level error from `client.Do`, or a response with its status
code, status line, and the result of `TextToMetricFamilies` on the body —
a parse error or the metric families.  The family list's order stands for
the order in which Go enumerates the returned `map[string]*MetricFamily`,
which is the order the source's `for ... range` loop visits. -/
inductive FetchOutcome where
  | transportError (msg : String)
  | httpResponse (statusCode : Nat) (status : String)
      (body : Except String (List Family))

/-- `QueryExporter`: propagate a transport error; a status code other than
200 is an error carrying the status line; propagate a body parse error;
otherwise append each visited family's extracted samples in turn
(`samples = append(samples, familySamples...)`). -/
def QueryExporter : FetchOutcome → Except String (List Sample)
  | .transportError msg => Except.error msg
  | .httpResponse code status body =>
    if code ≠ 200 then
      Except.error ("exporter returned non OK HTTP response status: " ++ status)
    else
      match body with
      | Except.error e => Except.error e
      | Except.ok fams =>
        Except.ok (fams.foldl (fun acc fam => acc ++ fam.extracted) [])

/-- `executeCheck`: on a fetch error print `Failed: %s` and return UNKNOWN
without evaluating anything; on success run the sample loop. -/
def executeCheck (sentinel : ℚ) (cfg : Config) (o : FetchOutcome) :
    Nat × List Diag :=
  match QueryExporter o with
  | Except.error e => (checkStateUnknown, [Diag.failedFetch e])
  | Except.ok samples => evalLoop sentinel cfg samples

/-- Number of set-and-violated conditions of one sample (all three
conditions counted independently). -/
def sampleFailCount (sentinel : ℚ) (cfg : Config) (s : Sample) : Nat :=
  (if cfg.value ≠ sentinel ∧ s.value ≠ cfg.value then 1 else 0)
  + (if cfg.min ≠ sentinel ∧ s.value < cfg.min then 1 else 0)
  + (if cfg.max ≠ sentinel ∧ s.value > cfg.max then 1 else 0)

/-- Modelled from the spec: the accumulate-all evaluator of §4.2 — scan
every matching sample, evaluate every set condition on it independently,
and sum the failures with no short-circuit.  (The source code instead
returns at the first failure; this definition exists to compare the two.) -/
def specAccumFailures (sentinel : ℚ) (cfg : Config) : List Sample → Nat
  | [] => 0
  | s :: rest =>
    (if metricString s.labels = cfg.metric then sampleFailCount sentinel cfg s
     else 0)
    + specAccumFailures sentinel cfg rest

/-- The line the loop body prints for a matching sample it reaches: the
first set-and-violated condition in the fixed order exact-value, minimum,
maximum, or the sample's OK line when none fires. -/
def sampleDiag (sentinel : ℚ) (cfg : Config) (s : Sample) : Diag :=
  if cfg.value ≠ sentinel ∧ s.value ≠ cfg.value then
    Diag.requireValue cfg.metric s.value cfg.value
  else if cfg.min ≠ sentinel ∧ s.value < cfg.min then
    Diag.requireMin cfg.metric s.value cfg.min
  else if cfg.max ≠ sentinel ∧ s.value > cfg.max then
    Diag.requireMax cfg.metric s.value cfg.max
  else
    Diag.atValue cfg.metric s.value

/-- The failure line of the first matching sample that violates a set
condition, scanning samples in order and conditions in the fixed order
exact-value, minimum, maximum; `none` when no matching sample violates a
set condition. -/
def firstViolation (sentinel : ℚ) (cfg : Config) : List Sample → Option Diag
  | [] => none
  | s :: rest =>
    if metricString s.labels = cfg.metric then
      if (sampleDiag sentinel cfg s).isFailure then
        some (sampleDiag sentinel cfg s)
      else firstViolation sentinel cfg rest
    else firstViolation sentinel cfg rest

/-- The numeric constraint every printed failure line satisfies by
construction: a `requireValue` line has observed ≠ required, a
`requireMin` line observed < required, a `requireMax` line
required < observed. -/
def diagConstraint : Diag → Prop
  | .requireValue _ v r => v ≠ r
  | .requireMin _ v r => v < r
  | .requireMax _ v r => r < v
  | _ => True

/-- Which conditions are set: a failure line is only ever printed by a
condition whose option is not at the sentinel. -/
def diagFromSet (sentinel : ℚ) (cfg : Config) : Diag → Prop
  | .requireValue _ _ _ => cfg.value ≠ sentinel
  | .requireMin _ _ _ => cfg.min ≠ sentinel
  | .requireMax _ _ _ => cfg.max ≠ sentinel
  | _ => True

theorem evalLoop_cons_nomatch (sentinel : ℚ) (cfg : Config) (s : Sample)
    (rest : List Sample) (h : metricString s.labels ≠ cfg.metric) :
    evalLoop sentinel cfg (s :: rest) = evalLoop sentinel cfg rest := by
  simp [evalLoop, h]

theorem evalLoop_cons_match (sentinel : ℚ) (cfg : Config) (s : Sample)
    (rest : List Sample) (h : metricString s.labels = cfg.metric) :
    evalLoop sentinel cfg (s :: rest) =
      if (sampleDiag sentinel cfg s).isFailure then
        (checkStateCritical, [sampleDiag sentinel cfg s])
      else
        ((evalLoop sentinel cfg rest).1,
          Diag.atValue cfg.metric s.value :: (evalLoop sentinel cfg rest).2) := by
  rw [show evalLoop sentinel cfg (s :: rest) =
      (if metricString s.labels = cfg.metric then
        if cfg.value ≠ sentinel ∧ s.value ≠ cfg.value then
          (checkStateCritical, [Diag.requireValue cfg.metric s.value cfg.value])
        else if cfg.min ≠ sentinel ∧ s.value < cfg.min then
          (checkStateCritical, [Diag.requireMin cfg.metric s.value cfg.min])
        else if cfg.max ≠ sentinel ∧ s.value > cfg.max then
          (checkStateCritical, [Diag.requireMax cfg.metric s.value cfg.max])
        else
          ((evalLoop sentinel cfg rest).1,
            Diag.atValue cfg.metric s.value :: (evalLoop sentinel cfg rest).2)
      else evalLoop sentinel cfg rest) from rfl]
  rw [if_pos h]
  unfold sampleDiag
  split_ifs <;> simp_all [Diag.isFailure]

theorem evalLoop_singleton (sentinel : ℚ) (cfg : Config) (s : Sample)
    (h : metricString s.labels = cfg.metric) :
    evalLoop sentinel cfg [s] =
      if (sampleDiag sentinel cfg s).isFailure then
        (checkStateCritical, [sampleDiag sentinel cfg s])
      else (checkStateOK, [Diag.atValue cfg.metric s.value]) := by
  rw [evalLoop_cons_match sentinel cfg s [] h]
  split_ifs <;> rfl

theorem sampleDiag_not_failure (sentinel : ℚ) (cfg : Config) (s : Sample)
    (h : (sampleDiag sentinel cfg s).isFailure = false) :
    sampleDiag sentinel cfg s = Diag.atValue cfg.metric s.value := by
  unfold sampleDiag at h ⊢
  split_ifs at h ⊢ <;> simp_all [Diag.isFailure]

theorem sampleDiag_failure_iff (sentinel : ℚ) (cfg : Config) (s : Sample) :
    (sampleDiag sentinel cfg s).isFailure = true ↔
      0 < sampleFailCount sentinel cfg s := by
  unfold sampleDiag sampleFailCount
  split_ifs <;> simp [Diag.isFailure]

/-- Every line the loop prints satisfies its numeric constraint and comes
from a condition that is set. -/
theorem evalLoop_diag_sound (sentinel : ℚ) (cfg : Config) :
    ∀ samples : List Sample, ∀ d ∈ (evalLoop sentinel cfg samples).2,
      diagConstraint d ∧ diagFromSet sentinel cfg d := by
  intro samples
  induction samples with
  | nil => intro d hd; simp [evalLoop] at hd
  | cons s rest ih =>
    intro d hd
    by_cases h : metricString s.labels = cfg.metric
    · rw [evalLoop_cons_match sentinel cfg s rest h] at hd
      by_cases hf : (sampleDiag sentinel cfg s).isFailure
      · rw [if_pos hf] at hd
        simp only [List.mem_singleton] at hd
        subst hd
        unfold sampleDiag
        split_ifs with h1 h2 h3 <;>
          simp_all [diagConstraint, diagFromSet]
      · rw [if_neg hf] at hd
        simp only [List.mem_cons] at hd
        rcases hd with hd | hd
        · subst hd; simp [diagConstraint, diagFromSet]
        · exact ih d hd
    · rw [evalLoop_cons_nomatch sentinel cfg s rest h] at hd
      exact ih d hd

/-- The verdict of the loop is OK or CRITICAL, nothing else. -/
theorem evalLoop_verdict (sentinel : ℚ) (cfg : Config) :
    ∀ samples : List Sample,
      (evalLoop sentinel cfg samples).1 = checkStateOK ∨
        (evalLoop sentinel cfg samples).1 = checkStateCritical := by
  intro samples
  induction samples with
  | nil => left; rfl
  | cons s rest ih =>
    by_cases h : metricString s.labels = cfg.metric
    · rw [evalLoop_cons_match sentinel cfg s rest h]
      by_cases hf : (sampleDiag sentinel cfg s).isFailure
      · rw [if_pos hf]; right; rfl
      · rw [if_neg hf]; exact ih
    · rw [evalLoop_cons_nomatch sentinel cfg s rest h]; exact ih

/-- The loop's verdict is CRITICAL exactly when the spec's accumulate-all
failure count over the same samples is positive. -/
theorem evalLoop_critical_iff (sentinel : ℚ) (cfg : Config) :
    ∀ samples : List Sample,
      ((evalLoop sentinel cfg samples).1 = checkStateCritical ↔
        0 < specAccumFailures sentinel cfg samples) := by
  intro samples
  induction samples with
  | nil =>
    simp [evalLoop, specAccumFailures, checkStateOK, checkStateCritical]
  | cons s rest ih =>
    by_cases h : metricString s.labels = cfg.metric
    · rw [evalLoop_cons_match sentinel cfg s rest h]
      by_cases hf : (sampleDiag sentinel cfg s).isFailure
      · rw [if_pos hf]
        have hpos := (sampleDiag_failure_iff sentinel cfg s).1 hf
        simp only [specAccumFailures, if_pos h]
        constructor
        · intro _; omega
        · intro _; trivial
      · rw [if_neg hf]
        have h0 : sampleFailCount sentinel cfg s = 0 := by
          by_contra hne
          exact hf ((sampleDiag_failure_iff sentinel cfg s).2
            (Nat.pos_of_ne_zero hne))
        simp only [specAccumFailures, if_pos h, h0, Nat.zero_add]
        simpa using ih
    · rw [evalLoop_cons_nomatch sentinel cfg s rest h]
      simp only [specAccumFailures, if_neg h, Nat.zero_add]
      exact ih

/-- Claim C1: when no sample's rendered metric equals the configured
metric name, the loop performs no comparisons — it prints nothing — and
returns the OK verdict, whatever the three thresholds are (the config and
the sentinel are arbitrary). -/
theorem C1_absent_metric_ok (sentinel : ℚ) (cfg : Config) :
    ∀ samples : List Sample,
      (∀ s ∈ samples, metricString s.labels ≠ cfg.metric) →
      evalLoop sentinel cfg samples = (checkStateOK, []) := by
  intro samples
  induction samples with
  | nil => intro _; rfl
  | cons s rest ih =>
    intro h
    rw [evalLoop_cons_nomatch sentinel cfg s rest (h s (List.mem_cons_self s rest))]
    exact ih fun x hx => h x (List.mem_cons_of_mem s hx)

/-- Concrete instance of C1: metric `up` configured with `min = 10` set,
one sample named `node_load` — verdict OK, nothing printed. -/
def c1cfg : Config := ⟨"", "up", 10, 0, 0⟩

/-- The single, non-matching sample of the C1 instance. -/
def c1s : Sample := ⟨[⟨"__name__", "node_load"⟩], 1⟩

theorem C1_absent_metric_ok_witness :
    evalLoop 0 c1cfg [c1s] = (checkStateOK, []) :=
  C1_absent_metric_ok 0 c1cfg [c1s] (by decide)

/-- Configuration of the C2 counterexample: metric `up`, minimum 10 set,
maximum and exact value unset (zero sentinel). -/
def c2cfg : Config := ⟨"", "up", 10, 0, 0⟩

/-- First matching sample of the C2 counterexample, value 1. -/
def c2s1 : Sample := ⟨[⟨"__name__", "up"⟩], 1⟩

/-- Second matching sample of the C2 counterexample, value 2. -/
def c2s2 : Sample := ⟨[⟨"__name__", "up"⟩], 2⟩

/-- Claim C2 is false as stated: with two matching samples both strictly
below the set minimum, the spec's exhaustive accumulation counts two
failures, but the program records a single failure line and stops — it
does not scan all samples. -/
theorem C2_no_full_scan_counterexample :
    (metricString c2s2.labels = c2cfg.metric ∧ c2cfg.min ≠ 0 ∧
      c2s2.value < c2cfg.min) ∧
    specAccumFailures 0 c2cfg [c2s1, c2s2] = 2 ∧
    (evalLoop 0 c2cfg [c2s1, c2s2]).2.countP Diag.isFailure = 1 ∧
    evalLoop 0 c2cfg [c2s1, c2s2] =
      (checkStateCritical, [Diag.requireMin "up" 1 10]) := by
  decide

/-- Claim C2, amended: the evaluator short-circuits at the first
set-and-violated condition instead of accumulating, but its verdict is
still CRITICAL exactly when the spec's full-scan failure count is
positive, and OK otherwise. -/
theorem C2_critical_iff_accum_positive (sentinel : ℚ) (cfg : Config)
    (samples : List Sample) :
    ((evalLoop sentinel cfg samples).1 = checkStateCritical ↔
      0 < specAccumFailures sentinel cfg samples) ∧
    ((evalLoop sentinel cfg samples).1 = checkStateOK ↔
      specAccumFailures sentinel cfg samples = 0) := by
  have hcrit := evalLoop_critical_iff sentinel cfg samples
  have hv := evalLoop_verdict sentinel cfg samples
  constructor
  · exact hcrit
  · constructor
    · intro hok
      by_contra hne
      have := hcrit.2 (Nat.pos_of_ne_zero hne)
      rw [hok] at this
      exact absurd this (by decide)
    · intro h0
      rcases hv with hok | hcr
      · exact hok
      · have := hcrit.1 hcr
        omega

/-- Configuration of the C3 counterexample: metric name `up`, minimum 10
set. -/
def c3cfg : Config := ⟨"", "up", 10, 0, 0⟩

/-- Sample of the C3 counterexample: `__name__` is `up` but it carries a
further label `host="a"`. -/
def c3s : Sample := ⟨[⟨"__name__", "up"⟩, ⟨"host", "a"⟩], 1⟩

/-- Claim C3 is false as stated: this sample's `__name__` label equals the
configured metric name and its value violates the set minimum, yet the
evaluator ignores it (its full rendering carries the extra label) and
returns OK with no output. -/
theorem C3_name_label_counterexample :
    nameLabel c3s = some c3cfg.metric ∧ c3cfg.min ≠ 0 ∧
    c3s.value < c3cfg.min ∧
    evalLoop 0 c3cfg [c3s] = (checkStateOK, []) := by
  decide

/-- Claim C3, amended: a sample is eligible if and only if its full
rendered metric string — `model.Metric.String()`, the base name plus the
sorted rendering of every other label — equals the configured metric
string.  When the rendering matches, the sample is evaluated (the head of
the output is its line); when it does not, the sample leaves the
evaluation unchanged. -/
theorem C3_eligibility_by_rendering (sentinel : ℚ) (cfg : Config)
    (s : Sample) (rest : List Sample) :
    if metricString s.labels = cfg.metric then
      (evalLoop sentinel cfg (s :: rest)).2.head? =
        some (sampleDiag sentinel cfg s)
    else
      evalLoop sentinel cfg (s :: rest) = evalLoop sentinel cfg rest := by
  by_cases h : metricString s.labels = cfg.metric
  · rw [if_pos h, evalLoop_cons_match sentinel cfg s rest h]
    by_cases hf : (sampleDiag sentinel cfg s).isFailure
    · rw [if_pos hf]; rfl
    · rw [if_neg hf]
      have := sampleDiag_not_failure sentinel cfg s (by simpa using hf)
      simp [this]
  · rw [if_neg h]
    exact evalLoop_cons_nomatch sentinel cfg s rest h

/-- Claim C4: variant A's guard is inverted.  With no threshold set (all
three at the zero sentinel) `checkArgsA` passes validation, and with all
three set it fails — the opposite of the stated contract — while variant
B's `checkArgsB` accepts a configuration exactly when the metric name is
non-empty and at least one option moved off the π sentinel. -/
theorem C4_checkArgs_validation :
    checkArgsA ⟨"", "m", 0, 0, 0⟩ = (checkStateOK, none) ∧
    checkArgsA ⟨"", "m", 1, 2, 5⟩ =
      (checkStateUnknown, some "don\x27t do that") ∧
    checkArgsB ⟨"", "m", piF64, piF64, piF64⟩ =
      (checkStateUnknown, some "don\x27t do that") ∧
    (∀ cfg : Config, checkArgsB cfg = (checkStateOK, none) ↔
      (cfg.metric ≠ "" ∧
        ¬(cfg.value = piF64 ∧ cfg.max = piF64 ∧ cfg.min = piF64))) := by
  refine ⟨by decide, by decide, by decide, ?_⟩
  intro cfg
  unfold checkArgsB
  split_ifs with h1 h2 <;>
    simp_all [checkStateOK, checkStateUnknown]

/-- Configuration of the C5 counterexample: metric `up`, exact value 5 and
minimum 10 both set, maximum unset. -/
def c5cfg : Config := ⟨"", "up", 10, 0, 5⟩

/-- Sample of the C5 counterexample: matching, value 3 — below the set
minimum and different from the set exact value. -/
def c5s : Sample := ⟨[⟨"__name__", "up"⟩], 3⟩

/-- Claim C5 is false as stated: the minimum is set and the matching
sample's value is strictly below it, yet no minimum diagnostic is
recorded — the exact-value condition fires first and the evaluator
returns, so the minimum condition contributes nothing. -/
theorem C5_min_diag_counterexample :
    (metricString c5s.labels = c5cfg.metric ∧ c5cfg.min ≠ 0 ∧
      c5s.value < c5cfg.min) ∧
    evalLoop 0 c5cfg [c5s] =
      (checkStateCritical, [Diag.requireValue "up" 3 5]) := by
  decide

/-- Claim C5, amended: for a single matching sample, the minimum condition
records its diagnostic and the failure if and only if the minimum is set,
the value is strictly below it, and the exact-value condition did not fire
first; the maximum condition if and only if it is set, the value is
strictly above it, and neither the exact-value nor the minimum condition
fired first.  A value equal to a bound never fires that bound's condition:
every recorded minimum line has observed strictly below its bound and
every maximum line observed strictly above (third conjunct, over any
sample list). -/
theorem C5_min_max_conditions (sentinel : ℚ) (cfg : Config) (s : Sample)
    (h : metricString s.labels = cfg.metric) :
    ((evalLoop sentinel cfg [s]).2 =
        [Diag.requireMin cfg.metric s.value cfg.min] ↔
      (cfg.min ≠ sentinel ∧ s.value < cfg.min ∧
        ¬(cfg.value ≠ sentinel ∧ s.value ≠ cfg.value))) ∧
    ((evalLoop sentinel cfg [s]).2 =
        [Diag.requireMax cfg.metric s.value cfg.max] ↔
      (cfg.max ≠ sentinel ∧ s.value > cfg.max ∧
        ¬(cfg.value ≠ sentinel ∧ s.value ≠ cfg.value) ∧
        ¬(cfg.min ≠ sentinel ∧ s.value < cfg.min))) ∧
    (∀ samples : List Sample, ∀ d ∈ (evalLoop sentinel cfg samples).2,
      diagConstraint d) := by
  refine ⟨?_, ?_, fun samples d hd =>
    (evalLoop_diag_sound sentinel cfg samples d hd).1⟩ <;>
  · rw [evalLoop_singleton sentinel cfg s h]
    unfold sampleDiag
    split_ifs with h1 h2 h3 <;> simp_all [Diag.isFailure]

/-- Witness configuration for the amended C5: only the minimum (10) set. -/
def c5wcfg : Config := ⟨"", "up", 10, 0, 0⟩

/-- Witness sample for the amended C5: matching, value 3. -/
def c5ws : Sample := ⟨[⟨"__name__", "up"⟩], 3⟩

theorem C5_min_max_conditions_witness :
    (evalLoop 0 c5wcfg [c5ws]).2 = [Diag.requireMin "up" 3 10] :=
  ((C5_min_max_conditions 0 c5wcfg c5ws (by decide)).1).mpr (by decide)

/-- Configuration of the C6 counterexample: metric `up`, exact value 5
set, minimum and maximum unset. -/
def c6cfg : Config := ⟨"", "up", 0, 0, 5⟩

/-- First matching sample of the C6 counterexample, value 3. -/
def c6s1 : Sample := ⟨[⟨"__name__", "up"⟩], 3⟩

/-- Second matching sample of the C6 counterexample, value 4. -/
def c6s2 : Sample := ⟨[⟨"__name__", "up"⟩], 4⟩

/-- Claim C6 is false as stated: the exact-value condition is set and the
second matching sample's value differs from it, yet no diagnostic is
recorded for that sample — the evaluator already returned at the first
sample, so "records a diagnostic exactly when set and different" fails. -/
theorem C6_exact_value_counterexample :
    (metricString c6s2.labels = c6cfg.metric ∧ c6cfg.value ≠ 0 ∧
      c6s2.value ≠ c6cfg.value) ∧
    evalLoop 0 c6cfg [c6s1, c6s2] =
      (checkStateCritical, [Diag.requireValue "up" 3 5]) := by
  decide

/-- Claim C6, amended: a sample whose value equals the configured exact
value never contributes an exact-value failure (every recorded exact-value
line has observed ≠ required, over any sample list); and for a matching
sample the evaluator reaches, the exact-value condition records its
diagnostic and the failure if and only if it is set and the value differs
from it. -/
theorem C6_exact_value_condition (sentinel : ℚ) (cfg : Config) :
    (∀ samples : List Sample, ∀ d ∈ (evalLoop sentinel cfg samples).2,
      ∀ m v r, d = Diag.requireValue m v r → v ≠ r) ∧
    (∀ s : Sample, metricString s.labels = cfg.metric →
      ((evalLoop sentinel cfg [s]).2 =
          [Diag.requireValue cfg.metric s.value cfg.value] ↔
        (cfg.value ≠ sentinel ∧ s.value ≠ cfg.value))) := by
  constructor
  · intro samples d hd m v r hdv
    have hc := (evalLoop_diag_sound sentinel cfg samples d hd).1
    rw [hdv] at hc
    exact hc
  · intro s h
    rw [evalLoop_singleton sentinel cfg s h]
    unfold sampleDiag
    split_ifs with h1 h2 h3 <;> simp_all [Diag.isFailure]

/-- Claim C7: a condition left at the configuration layer's sentinel is
never evaluated — every failure line printed comes from a condition whose
option is off the sentinel (so an unset exact-value, minimum or maximum
condition contributes no diagnostic), and with all three options unset the
verdict is OK whatever the samples are. -/
theorem C7_unset_never_evaluated (sentinel : ℚ) (cfg : Config)
    (samples : List Sample) :
    (∀ d ∈ (evalLoop sentinel cfg samples).2, diagFromSet sentinel cfg d) ∧
    (cfg.value = sentinel ∧ cfg.min = sentinel ∧ cfg.max = sentinel →
      (evalLoop sentinel cfg samples).1 = checkStateOK) := by
  constructor
  · exact fun d hd => (evalLoop_diag_sound sentinel cfg samples d hd).2
  · intro hset
    have h0 : specAccumFailures sentinel cfg samples = 0 := by
      induction samples with
      | nil => rfl
      | cons s rest ih =>
        have hc : sampleFailCount sentinel cfg s = 0 := by
          unfold sampleFailCount
          simp [hset.1, hset.2.1, hset.2.2]
        simp only [specAccumFailures, hc, ih]
        split <;> rfl
    rcases evalLoop_verdict sentinel cfg samples with hok | hcr
    · exact hok
    · have := (evalLoop_critical_iff sentinel cfg samples).1 hcr
      omega

/-- Claim C8: every fetch failure is an error of `QueryExporter` —
a transport error is propagated, a non-200 status yields the error
carrying the status line, a body parse error is propagated — and on any
`QueryExporter` error `executeCheck` returns UNKNOWN with only the
`Failed:` line, for every configuration and sentinel: no threshold
evaluation happens. -/
theorem C8_fetch_errors_unknown (sentinel : ℚ) (cfg : Config) :
    (∀ msg, QueryExporter (FetchOutcome.transportError msg) =
      Except.error msg) ∧
    (∀ code status body, code ≠ 200 →
      QueryExporter (FetchOutcome.httpResponse code status body) =
        Except.error
          ("exporter returned non OK HTTP response status: " ++ status)) ∧
    (∀ status e,
      QueryExporter (FetchOutcome.httpResponse 200 status (Except.error e)) =
        Except.error e) ∧
    (∀ o e, QueryExporter o = Except.error e →
      executeCheck sentinel cfg o =
        (checkStateUnknown, [Diag.failedFetch e])) := by
  refine ⟨fun msg => rfl, ?_, fun status e => rfl, ?_⟩
  · intro code status body hc
    simp [QueryExporter, hc]
  · intro o e he
    simp [executeCheck, he]

/-- Sample of family `a` in the C9 instance. -/
def c9sa : Sample := ⟨[⟨"__name__", "a"⟩], 1⟩

/-- Sample of family `b` in the C9 instance. -/
def c9sb : Sample := ⟨[⟨"__name__", "b"⟩], 2⟩

/-- Family `a` of the C9 instance. -/
def c9fa : Family := ⟨[c9sa]⟩

/-- Family `b` of the C9 instance. -/
def c9fb : Family := ⟨[c9sb]⟩

/-- Claim C9: the samples `QueryExporter` returns are the concatenation of
the families' samples in the order the families are enumerated — and that
order matters: enumerating the same two families in the two orders gives
two different results.  The enumeration the source uses is `range` over
the Go map `TextToMetricFamilies` returns, whose order is randomized per
run, so the output order is neither the body order nor deterministic. -/
theorem C9_family_order_sensitivity :
    QueryExporter (FetchOutcome.httpResponse 200 "200 OK"
        (Except.ok [c9fa, c9fb])) = Except.ok [c9sa, c9sb] ∧
    QueryExporter (FetchOutcome.httpResponse 200 "200 OK"
        (Except.ok [c9fb, c9fa])) = Except.ok [c9sb, c9sa] ∧
    [c9sa, c9sb] ≠ [c9sb, c9sa] := by
  exact ⟨rfl, rfl, by decide⟩

/-- Claim C10: whenever the evaluator returns CRITICAL it stopped at the
first set-and-violated condition (in the fixed order exact-value, minimum,
maximum) of the first violating matching sample: the verdict is CRITICAL
exactly when `firstViolation` finds such a condition, the failure lines
printed are exactly that one line, and it is the last thing printed — no
later sample or condition is reached. -/
theorem C10_short_circuit (sentinel : ℚ) (cfg : Config)
    (samples : List Sample) :
    (evalLoop sentinel cfg samples).1 =
      (if (firstViolation sentinel cfg samples).isSome then
        checkStateCritical
      else checkStateOK) ∧
    (evalLoop sentinel cfg samples).2.filter (fun d => d.isFailure) =
      (firstViolation sentinel cfg samples).toList ∧
    ((firstViolation sentinel cfg samples).isSome = true →
      (evalLoop sentinel cfg samples).2.getLast? =
        firstViolation sentinel cfg samples) := by
  induction samples with
  | nil =>
    exact ⟨rfl, rfl, fun hs => by simp [firstViolation] at hs⟩
  | cons s rest ih =>
    obtain ⟨ih1, ih2, ih3⟩ := ih
    by_cases h : metricString s.labels = cfg.metric
    · rw [evalLoop_cons_match sentinel cfg s rest h]
      by_cases hf : (sampleDiag sentinel cfg s).isFailure
      · have hfv : firstViolation sentinel cfg (s :: rest) =
            some (sampleDiag sentinel cfg s) := by
          simp [firstViolation, h, hf]
        rw [if_pos hf, hfv]
        refine ⟨rfl, ?_, fun _ => rfl⟩
        simp [List.filter, hf]
      · have hfv : firstViolation sentinel cfg (s :: rest) =
            firstViolation sentinel cfg rest := by
          simp [firstViolation, h, hf]
        have hAt : (Diag.atValue cfg.metric s.value).isFailure = false := rfl
        rw [if_neg hf, hfv]
        refine ⟨ih1, ?_, ?_⟩
        · simpa [List.filter, hAt] using ih2
        · intro hs
          have h3 := ih3 hs
          cases hr : (evalLoop sentinel cfg rest).2 with
          | nil =>
            rw [hr] at h3
            cases hfr : firstViolation sentinel cfg rest with
            | none => rw [hfr] at hs; simp at hs
            | some d => rw [hfr] at h3; simp at h3
          | cons a l =>
            rw [hr] at h3
            simpa [List.getLast?_cons_cons] using h3
    · rw [evalLoop_cons_nomatch sentinel cfg s rest h]
      have hfv : firstViolation sentinel cfg (s :: rest) =
          firstViolation sentinel cfg rest := by
        simp [firstViolation, h]
      rw [hfv]
      exact ⟨ih1, ih2, ih3⟩

end SensuCheck
